import Mathlib

/-!
Verification development for the CSIR IoT weather dashboard backend.

This file gives a shallow embedding, in Lean, of the parts of the backend
that the specification talks about:

* the Socket.IO push layer (`src/backend/src/services/websocket.service.ts`):
  the nullable server handle `io`, the `connectedClients` map, room
  membership driven by the `subscribe:*` / `unsubscribe:*` client events,
  and the three delivery functions `broadcastToClients`, `sendToRoom`,
  `sendToClient`;
* the MQTT ingestion layer (`src/backend/src/services/mqtt.service.ts`):
  topic matching, `handleMQTTMessage`, `handleSensorData`,
  `handleSensorStatus`, `handleWeatherUpdate`;
* the IoT REST routes (`routes/iot.routes.ts`): paginated reading list,
  latest-per-sensor aggregation, reading submission, the tree snapshot
  with its `getUnit` table and `toFixed(2)` formatting;
* the sensor admin routes (`routes/sensor.routes.ts`): the PUT update
  handler, which never touches `lastReading`;
* the weather service (`src/backend/src/services/weather.service.ts`):
  the axios timeout configuration and the error produced when the
  upstream call fails.

Mongo documents are embedded as Lean structures; collections are Lean
lists kept in insertion order; `new Date()` timestamps are naturals fed
in by the caller; the database sort `{timestamp: -1}` is a stable
descending insertion sort; IO failure of `save()` is an explicit boolean
oracle passed to the handler; numbers are rationals (binary-float
artifacts of JavaScript are elided).
-/

namespace IoT

/-! ## Basic data model (models/sensor.model.ts, models/reading.model.ts) -/

abbrev SensorId := String
abbrev ClientId := String
abbrev Room := String

/-- An open map of named numeric measurements (the `data` field of a
reading, and the parsed JSON payload of a bus message). -/
abbrev DataMap := List (String × ℚ)

/-- `ISensorLocation` from the sensor model. -/
structure Location where
  latitude : ℚ
  longitude : ℚ
  locName : String
  altitude : ℚ
  deriving Repr, DecidableEq

/-- `ISensor` (the fields the handlers under study read or write). -/
structure Sensor where
  sensorId : SensorId
  name : String
  sensorType : String
  location : Location
  isActive : Bool
  lastReading : Option Nat
  deriving Repr, DecidableEq

/-- `IIoTReading` as constructed by the handlers. -/
structure Reading where
  sensorId : SensorId
  timestamp : Nat
  data : DataMap
  quality : String
  deriving Repr, DecidableEq

/-! ## WebSocket service (services/websocket.service.ts)

`io` is nullable until `initializeWebSocket` runs: `initialized` embeds
`io ≠ null`.  `connectedClients` is the module-level map, kept as the
list of client ids in insertion order.  Socket.IO room membership is the
list of (client, room) pairs. -/

structure WSState where
  initialized : Bool
  connectedClients : List ClientId
  rooms : List (ClientId × Room)
  deriving Repr, DecidableEq

/-- The state right after module load: `io = null`, no clients. -/
def WSState.empty : WSState := ⟨false, [], []⟩

/-- `initializeWebSocket`: sets the module-level `io`. -/
def initializeWebSocket (ws : WSState) : WSState :=
  { ws with initialized := true }

/-- `handleConnection`: stores the socket in `connectedClients` (the
welcome `connected` emission is not modelled). -/
def handleConnection (ws : WSState) (c : ClientId) : WSState :=
  { ws with connectedClients := ws.connectedClients ++ [c] }

/-- The `subscribe:sensor` client event: `socket.join('sensor:' + sensorId)`. -/
def subscribeSensor (ws : WSState) (c : ClientId) (sensorId : SensorId) : WSState :=
  { ws with rooms := ws.rooms ++ [(c, "sensor:" ++ sensorId)] }

/-- The `unsubscribe:sensor` client event: `socket.leave('sensor:' + sensorId)`. -/
def unsubscribeSensor (ws : WSState) (c : ClientId) (sensorId : SensorId) : WSState :=
  { ws with rooms := ws.rooms.filter (fun m => m ≠ (c, "sensor:" ++ sensorId)) }

/-- The `subscribe:weather` client event: `socket.join('weather')`. -/
def subscribeWeather (ws : WSState) (c : ClientId) : WSState :=
  { ws with rooms := ws.rooms ++ [(c, "weather")] }

/-- The `subscribe:all` client event: `socket.join('all-updates')`. -/
def subscribeAll (ws : WSState) (c : ClientId) : WSState :=
  { ws with rooms := ws.rooms ++ [(c, "all-updates")] }

/-- The `disconnect` event: the socket is removed from `connectedClients`
and Socket.IO drops its room memberships. -/
def handleDisconnect (ws : WSState) (c : ClientId) : WSState :=
  { ws with
    connectedClients := ws.connectedClients.filter (fun x => x ≠ c)
    rooms := ws.rooms.filter (fun m => m.1 ≠ c) }

/-- Whether client `c` is currently in room `r`. -/
def inRoom (ws : WSState) (c : ClientId) (r : Room) : Bool :=
  ws.rooms.contains (c, r)

/-- `broadcastToClients(event, data)`: `if (io) io.emit(event, data)`.
`io.emit` delivers to every connected socket; with `io` still null the
body is skipped and nothing is emitted.  The result is the list of
(client, event, data) emissions handed to the transport. -/
def broadcastToClients {α : Type} (ws : WSState) (event : String) (data : α) :
    List (ClientId × String × α) :=
  if ws.initialized then
    ws.connectedClients.map (fun c => (c, event, data))
  else
    []

/-- `sendToRoom(room, event, data)`: `if (io) io.to(room).emit(event, data)`,
delivering to exactly the connected sockets that joined `room`. -/
def sendToRoom {α : Type} (ws : WSState) (room : Room) (event : String) (data : α) :
    List (ClientId × String × α) :=
  if ws.initialized then
    (ws.connectedClients.filter (fun c => inRoom ws c room)).map (fun c => (c, event, data))
  else
    []

/-- `sendToClient(clientId, event, data)`: looks `clientId` up in the
`connectedClients` map and emits only when a socket is found. -/
def sendToClient {α : Type} (ws : WSState) (clientId : ClientId) (event : String) (data : α) :
    List (ClientId × String × α) :=
  if ws.connectedClients.contains clientId then
    [(clientId, event, data)]
  else
    []

/-- The clients an `iot:reading` broadcast reaches: both the MQTT path
(`handleSensorData`) and the REST path (`POST /api/iot/readings`) emit
readings through `broadcastToClients('iot:reading', …)`. -/
def iotReadingRecipients (ws : WSState) (sensorId : SensorId) : List ClientId :=
  (broadcastToClients ws "iot:reading" sensorId).map (fun e => e.1)

/-! ## MQTT service (services/mqtt.service.ts)

`handleMQTTMessage(topic, message)` parses the payload inside a
`try`/`catch`; `JSON.parse` throwing is embedded by the message being
`none`, in which case the `catch` logs and the handler returns with the
backend state untouched.  A parsed payload is a `DataMap`. -/

/-- An optional sensor summary attached to a broadcast reading event
(the REST submission path attaches `{name, type, location}`; the MQTT
path attaches nothing). -/
structure SensorSummary where
  name : String
  sensorType : String
  location : Location
  deriving Repr, DecidableEq

/-- The payload of a `broadcastToClients('iot:reading', …)` call. -/
structure ReadingEvent where
  sensorId : SensorId
  timestamp : Nat
  data : DataMap
  sensor : Option SensorSummary
  deriving Repr, DecidableEq

/-- One `broadcastToClients` call made by the backend handlers. -/
inductive BroadcastEvent where
  | iotReading (ev : ReadingEvent)
  | sensorStatus (sensorId : SensorId) (timestamp : Nat)
  | weatherUpdate (timestamp : Nat)
  deriving Repr, DecidableEq

/-- The mutable backend state the handlers touch: the `sensors` and
`iotreadings` collections (insertion order preserved) and the log of
`broadcastToClients` calls in the order they were made. -/
structure BackendState where
  sensors : List Sensor
  readings : List Reading
  broadcasts : List BroadcastEvent
  deriving Repr, DecidableEq

/-- The known fields merged into `data` by `handleSensorData`:
`{temperature: data.temperature, humidity: …, pressure: …,
windspeed: …, winddirection: …, ...data}`. -/
def KNOWN_FIELDS : List String :=
  ["temperature", "humidity", "pressure", "windspeed", "winddirection"]

/-- The `data` object built by `handleSensorData`.  JavaScript object
spread puts the five known keys first (with the payload value when the
payload has the key, `undefined` otherwise — `undefined` entries are
dropped by Mongoose on save) and the remaining payload keys after, in
payload order. -/
def buildReadingData (payload : DataMap) : DataMap :=
  (KNOWN_FIELDS.filterMap (fun k => (payload.lookup k).map (fun v => (k, v))))
    ++ payload.filter (fun kv => ¬ KNOWN_FIELDS.contains kv.1)

/-- `handleSensorData(sensorId, data)`: builds the reading, awaits
`reading.save()` and then broadcasts — both statements live in ONE
`try` block, so when `save()` rejects (`saveOk = false`) control jumps
to the `catch`, which only logs: the broadcast line is never reached.
`now` is the value of `new Date()`. -/
def handleSensorData (now : Nat) (saveOk : Bool) (sensorId : SensorId)
    (payload : DataMap) (st : BackendState) : BackendState :=
  let reading : Reading :=
    { sensorId := sensorId, timestamp := now
      data := buildReadingData payload, quality := "good" }
  if saveOk then
    { st with
      readings := st.readings ++ [reading]
      broadcasts := st.broadcasts ++
        [.iotReading ⟨sensorId, reading.timestamp, reading.data, none⟩] }
  else
    st

/-- `handleSensorStatus(sensorId, status)`: broadcast only, no persistence. -/
def handleSensorStatus (now : Nat) (sensorId : SensorId) (st : BackendState) :
    BackendState :=
  { st with broadcasts := st.broadcasts ++ [.sensorStatus sensorId now] }

/-- `handleWeatherUpdate(data)`: broadcast only, no persistence. -/
def handleWeatherUpdate (now : Nat) (st : BackendState) : BackendState :=
  { st with broadcasts := st.broadcasts ++ [.weatherUpdate now] }

/-- Substring occurrence, used to embed the unanchored regex `match`. -/
def strContains (s sub : String) : Bool :=
  decide (sub.toList <:+: s.toList)

/-- `topic.match(/csir\/sensors\/.*\/data/)`: some occurrence of
`csir/sensors/` followed (after any gap, `.*`) by `/data`. -/
def matchesSensorDataTopic (topic : String) : Bool :=
  topic.toList.tails.any (fun t =>
    "csir/sensors/".toList.isPrefixOf t &&
      strContains (String.mk (t.drop "csir/sensors/".length)) "/data")

/-- `topic.match(/csir\/sensors\/.*\/status/)`. -/
def matchesSensorStatusTopic (topic : String) : Bool :=
  topic.toList.tails.any (fun t =>
    "csir/sensors/".toList.isPrefixOf t &&
      strContains (String.mk (t.drop "csir/sensors/".length)) "/status")

/-- `MQTT_TOPICS.WEATHER_UPDATE`. -/
def WEATHER_UPDATE_TOPIC : String := "csir/weather/update"

/-- `topic.split('/')[2]` (empty when the topic has fewer parts; the
matched topics of interest always have one). -/
def topicPart2 (topic : String) : String :=
  (topic.splitOn "/").getD 2 ""

/-- `handleMQTTMessage(topic, message)`.  `message = none` embeds a
payload on which `JSON.parse` throws: the surrounding `try`/`catch`
swallows the error after logging it, so the function returns normally
and the state is untouched. -/
def handleMQTTMessage (now : Nat) (saveOk : Bool) (topic : String)
    (message : Option DataMap) (st : BackendState) : BackendState :=
  match message with
  | none => st
  | some payload =>
    if matchesSensorDataTopic topic then
      handleSensorData now saveOk (topicPart2 topic) payload st
    else if matchesSensorStatusTopic topic then
      handleSensorStatus now (topicPart2 topic) st
    else if topic = WEATHER_UPDATE_TOPIC then
      handleWeatherUpdate now st
    else
      st

/-! ## Sorting by timestamp descending

Embeds the Mongo sort `{timestamp: -1}` as a stable insertion sort:
readings with equal timestamps keep their insertion order. -/

/-- Insert a reading into a timestamp-descending list: walk past every
element with a strictly larger timestamp and stop before the first
element whose timestamp is `≤` its own, landing before already-placed
equal timestamps.  `foldr` feeds the list in from its last element
toward its first, so among equal timestamps the earlier list element is
inserted later and ends up first: the sort is stable. -/
def insertDesc (r : Reading) : List Reading → List Reading
  | [] => [r]
  | x :: xs =>
    if r.timestamp ≤ x.timestamp ∧ r.timestamp ≠ x.timestamp then
      x :: insertDesc r xs
    else
      r :: x :: xs

/-- Stable sort by `timestamp` descending (`.sort({timestamp: -1})`). -/
def sortByTimestampDesc (l : List Reading) : List Reading :=
  l.foldr insertDesc []

/-- `IoTReading.findOne({sensorId}).sort({timestamp: -1})`: the head of
the sensor's readings in timestamp-descending order. -/
def findLatestReading (readings : List Reading) (sid : SensorId) : Option Reading :=
  (sortByTimestampDesc (readings.filter (fun r => r.sensorId = sid))).head?

/-! ## Pagination (middleware/validation.middleware.ts, iot routes) -/

/-- `validatePagination`: `page` optional, integer `≥ 1`; `limit`
optional, integer in `[1, 100]`.  Returns whether the request passes
(on failure the middleware answers 400 and the handler never runs). -/
def validatePagination (pageParam limitParam : Option Int) : Bool :=
  (pageParam.all (fun p => 1 ≤ p)) && (limitParam.all (fun l => 1 ≤ l ∧ l ≤ 100))

/-- `Math.ceil(total / limit)` for naturals (`limit > 0` in practice). -/
def jsMathCeilDiv (total limitv : Nat) : Nat :=
  (total + limitv - 1) / limitv

/-- The `pagination` object of a paginated response. -/
structure PaginationMeta where
  page : Nat
  limit : Nat
  total : Nat
  pages : Nat
  deriving Repr, DecidableEq

/-- `GET /api/iot/readings`: filter by optional `sensorId`, sort by
timestamp descending, `skip((page-1)*limit).limit(limit)`, and report
`pages = Math.ceil(total/limit)`. -/
def getReadingsHandler (page limitv : Nat) (sensorIdFilter : Option SensorId)
    (readings : List Reading) : List Reading × PaginationMeta :=
  let filtered := match sensorIdFilter with
    | some sid => readings.filter (fun r => r.sensorId = sid)
    | none => readings
  let sorted := sortByTimestampDesc filtered
  let skip := (page - 1) * limitv
  ((sorted.drop skip).take limitv,
    { page := page, limit := limitv, total := filtered.length
      pages := jsMathCeilDiv filtered.length limitv })

/-! ## Latest per sensor (GET /api/iot/readings/latest)

The aggregation pipeline `[{$sort: {timestamp: -1}}, {$group: {_id:
'$sensorId', reading: {$first: '$$ROOT'}}}, {$replaceRoot…}]`: sort all
readings by timestamp descending, then keep the first reading seen for
each distinct `sensorId`. -/

/-- Keep the first occurrence of each `sensorId` not already in `seen`. -/
def groupFirstBySensor (seen : List SensorId) : List Reading → List Reading
  | [] => []
  | r :: rs =>
    if r.sensorId ∈ seen then
      groupFirstBySensor seen rs
    else
      r :: groupFirstBySensor (r.sensorId :: seen) rs

/-- The aggregation result of the latest-per-sensor endpoint. -/
def latestPerSensor (readings : List Reading) : List Reading :=
  groupFirstBySensor [] (sortByTimestampDesc readings)

/-- The enrichment step of the endpoint: each aggregated reading is
paired with `sensorMap.get(reading.sensorId) || null`. -/
def getLatestReadingsHandler (sensors : List Sensor) (readings : List Reading) :
    List (Reading × Option Sensor) :=
  (latestPerSensor readings).map
    (fun r => (r, sensors.find? (fun s => s.sensorId = r.sensorId)))

/-! ## Reading submission (POST /api/iot/readings) -/

/-- The request body after `validateIoTReading` parsing. -/
structure PostReadingBody where
  sensorId : SensorId
  data : DataMap
  quality : Option String
  deriving Repr, DecidableEq

/-- The response of a REST handler, as status code plus outcome. -/
inductive RestResult where
  | ok (status : Nat)
  | apiError (message : String) (status : Nat)
  | validationFailed
  deriving Repr, DecidableEq

/-- Replace the first sensor matching `p` (Mongoose `findOne` + mutate +
`save()` touches exactly that document). -/
def updateFirstSensor (p : Sensor → Bool) (f : Sensor → Sensor) :
    List Sensor → List Sensor
  | [] => []
  | s :: ss => if p s then f s :: ss else s :: updateFirstSensor p f ss

/-- `POST /api/iot/readings`.  `validateIoTReading` requires a nonempty
`sensorId` string and an object `data` (the object may be empty; only
its presence and type are checked — both hold by construction here, so
the middleware check left to model is `sensorId ≠ ""`).  Then: 404 when
no sensor matches, 400 `Sensor is inactive` when the sensor is
inactive; otherwise the reading is saved, `sensor.lastReading` is set
to the reading's timestamp, and the event is broadcast (the MQTT
re-publish is fire-and-forget and not persisted state). -/
def postReadingHandler (now : Nat) (body : PostReadingBody) (st : BackendState) :
    RestResult × BackendState :=
  if body.sensorId = "" then
    (.validationFailed, st)
  else
    match st.sensors.find? (fun s => s.sensorId = body.sensorId) with
    | none => (.apiError "Sensor not found" 404, st)
    | some sensor =>
      if ¬ sensor.isActive then
        (.apiError "Sensor is inactive" 400, st)
      else
        let reading : Reading :=
          { sensorId := body.sensorId, timestamp := now
            data := body.data, quality := body.quality.getD "good" }
        (.ok 201,
          { st with
            readings := st.readings ++ [reading]
            sensors := updateFirstSensor (fun s => s.sensorId = body.sensorId)
              (fun s => { s with lastReading := some reading.timestamp }) st.sensors
            broadcasts := st.broadcasts ++
              [.iotReading ⟨body.sensorId, reading.timestamp, reading.data,
                some ⟨sensor.name, sensor.sensorType, sensor.location⟩⟩] })

/-! ## Admin sensor update (PUT /api/sensors/:sensorId) -/

/-- The updatable fields of the PUT body (each `undefined` when absent).
`location`, `configuration` and `metadata` updates do not interact with
any claim's fields; `configuration`/`metadata` are not part of the
embedded `Sensor`.  `lastReading` is not among the fields the handler
copies. -/
structure SensorUpdateBody where
  name : Option String
  sensorType : Option String
  location : Option Location
  isActive : Option Bool
  deriving Repr, DecidableEq

/-- Apply the `if (field !== undefined) sensor.field = field` updates. -/
def applySensorUpdate (b : SensorUpdateBody) (s : Sensor) : Sensor :=
  { s with
    name := b.name.getD s.name
    sensorType := b.sensorType.getD s.sensorType
    location := b.location.getD s.location
    isActive := b.isActive.getD s.isActive }

/-- `PUT /api/sensors/:sensorId`: 404 when the sensor is unknown,
otherwise update the permitted fields and save. -/
def putSensorHandler (sensorId : SensorId) (b : SensorUpdateBody)
    (st : BackendState) : RestResult × BackendState :=
  match st.sensors.find? (fun s => s.sensorId = sensorId) with
  | none => (.apiError "Sensor not found" 404, st)
  | some _ =>
    (.ok 200,
      { st with
        sensors := updateFirstSensor (fun s => s.sensorId = sensorId)
          (applySensorUpdate b) st.sensors })

/-! ## Tree snapshot (GET /api/iot/tree) -/

/-- `getUnit(field)`: the fixed field→unit table. -/
def getUnit (field : String) : String :=
  if field = "temperature" then "°C"
  else if field = "humidity" then "%"
  else if field = "pressure" then "hPa"
  else if field = "windspeed" then "km/h"
  else if field = "winddirection" then "°"
  else if field = "battery" then "%"
  else if field = "signal_strength" then "dBm"
  else ""

/-- Left-pad a decimal string to `width` digits with zeros. -/
def padZeros (width : Nat) (s : String) : String :=
  String.join (List.replicate (width - s.length) "0") ++ s

/-- Scale a rational by `10^digits` and round to the nearest integer,
ties upward: `⌊q·10^digits + 1/2⌋ = ⌊(2·num·10^digits + den) /
(2·den)⌋`, written on the raw numerator and denominator so it evaluates
by kernel reduction. -/
def scaleRound (digits : Nat) (q : ℚ) : ℤ :=
  (2 * q.num * ((10 ^ digits : ℕ) : ℤ) + (q.den : ℤ)).fdiv (2 * (q.den : ℤ))

/-- `Number.prototype.toFixed(digits)` on an exact rational: round to
the nearest multiple of `10^-digits` (ties away from zero and ties up
agree on the nonnegative measurements involved; binary-float rounding
artifacts are elided — every value this development evaluates it on is
exact) and render with exactly `digits` decimals. -/
def toFixed (digits : Nat) (q : ℚ) : String :=
  let scaled : ℤ := scaleRound digits q
  let sign := if scaled < 0 then "-" else ""
  let n := scaled.natAbs
  if digits = 0 then
    sign ++ toString n
  else
    sign ++ toString (n / 10 ^ digits) ++ "." ++
      padZeros digits (toString (n % 10 ^ digits))

/-- One leaf of the tree: `{name: key, type: 'data', value:
value.toFixed(2), unit: getUnit(key)}` (every `data` value in this
model is numeric, so the `typeof value === 'number'` branch applies). -/
structure TreeLeaf where
  name : String
  value : String
  unitLabel : String
  deriving Repr, DecidableEq

/-- The `Latest Reading` node of one sensor. -/
structure ReadingNode where
  timestamp : Nat
  children : List TreeLeaf
  deriving Repr, DecidableEq

/-- One sensor node of the tree. -/
structure SensorNode where
  name : String
  sensorId : SensorId
  isActive : Bool
  children : List ReadingNode
  deriving Repr, DecidableEq

/-- The leaves built from one reading's `data` entries. -/
def readingLeaves (r : Reading) : List TreeLeaf :=
  r.data.map (fun kv => ⟨kv.1, toFixed 2 kv.2, getUnit kv.1⟩)

/-- Stable ascending sort of sensors by `sensorId`
(`Sensor.find().sort({sensorId: 1})`). -/
def insertAscSensor (s : Sensor) : List Sensor → List Sensor
  | [] => [s]
  | x :: xs =>
    if x.sensorId ≤ s.sensorId ∧ x.sensorId ≠ s.sensorId then
      x :: insertAscSensor s xs
    else
      s :: x :: xs

def sortBySensorIdAsc (l : List Sensor) : List Sensor :=
  l.foldr insertAscSensor []

/-- `GET /api/iot/tree` minus the constant root wrapper: one node per
sensor in `sensorId` order, holding one `Latest Reading` child when the
sensor has readings and none otherwise. -/
def getTreeHandler (sensors : List Sensor) (readings : List Reading) :
    List SensorNode :=
  (sortBySensorIdAsc sensors).map (fun s =>
    { name := s.name, sensorId := s.sensorId, isActive := s.isActive
      children :=
        match findLatestReading readings s.sensorId with
        | some r => [⟨r.timestamp, readingLeaves r⟩]
        | none => [] })

/-! ## Weather service (services/weather.service.ts) -/

/-- The axios request configuration of `fetchWeatherFromAPI`:
`{ timeout: 10000, headers: { Accept: 'application/json' } }`. -/
def weatherRequestTimeoutMs : Nat := 10000

/-- One attempt's upstream behavior: the upstream answers after `ms`
milliseconds, or never answers within any bound. -/
inductive UpstreamBehavior where
  | respondsAfter (ms : Nat) (temperature : ℚ) (weathercode : Nat)
  | unresponsive
  deriving Repr, DecidableEq

/-- The error surfaced by `fetchWeatherFromAPI`: the `catch` block wraps
whatever axios threw in `new Error('Failed to fetch weather data: ' +
axiosError.message)` — a plain `Error`, the only failure shape the
function produces. -/
inductive FetchError where
  | genericError (message : String)
  deriving Repr, DecidableEq

/-- The message axios gives a request that hits its `timeout`. -/
def axiosTimeoutMessage : String := "timeout of 10000ms exceeded"

/-- `fetchWeatherFromAPI`: one `axios.get` with `timeout: 10000`; on
success the response is processed, on any failure (including timeout)
the error is wrapped and re-thrown.  The second component counts the
upstream attempts made: the function body contains exactly one request
and no retry loop. -/
def fetchWeatherFromAPI (upstream : UpstreamBehavior) :
    Except FetchError (ℚ × Nat) × Nat :=
  match upstream with
  | .respondsAfter ms t code =>
    if ms ≤ weatherRequestTimeoutMs then
      (.ok (t, code), 1)
    else
      (.error (.genericError ("Failed to fetch weather data: " ++ axiosTimeoutMessage)), 1)
  | .unresponsive =>
    (.error (.genericError ("Failed to fetch weather data: " ++ axiosTimeoutMessage)), 1)

/-! ## Operation traces over the backend state

Used to settle trace-level invariants: the operations that can touch a
sensor's `lastReading` are MQTT ingestion (`handleMQTTMessage`), REST
reading submission (`postReadingHandler`) and admin sensor update
(`putSensorHandler`). -/

/-- One backend operation. -/
inductive Op where
  | mqttMessage (topic : String) (message : Option DataMap) (saveOk : Bool)
  | restPostReading (body : PostReadingBody)
  | adminPutSensor (sensorId : SensorId) (body : SensorUpdateBody)
  deriving Repr, DecidableEq

/-- Run one operation at wall-clock time `now` (the value `new Date()`
takes inside the handler). -/
def applyOp (now : Nat) (op : Op) (st : BackendState) : BackendState :=
  match op with
  | .mqttMessage topic message saveOk => handleMQTTMessage now saveOk topic message st
  | .restPostReading body => (postReadingHandler now body st).2
  | .adminPutSensor sensorId body => (putSensorHandler sensorId body st).2

/-- Run a list of operations with a strictly increasing clock starting
at `t0` (each handler observes a `new Date()` later than every earlier
one). -/
def runTrace (t0 : Nat) (ops : List Op) (st : BackendState) : BackendState :=
  match ops with
  | [] => st
  | op :: rest => runTrace (t0 + 1) rest (applyOp t0 op st)

/-- The `lastReading` of the sensor a given id resolves to (`findOne`
resolves to the first match). -/
def lastReadingOf (st : BackendState) (sid : SensorId) : Option Nat :=
  (st.sensors.find? (fun s => s.sensorId = sid)).bind (fun s => s.lastReading)

/-- Order on optional timestamps under which `lastReading` must evolve:
a recorded timestamp can only be replaced by a later-or-equal one, and
never disappear. -/
def lastReadingLE (a b : Option Nat) : Prop :=
  ∀ t, a = some t → ∃ u, b = some u ∧ t ≤ u

/-- Clock soundness of a state: every recorded `lastReading` was taken
from a `new Date()` at or before the current time. -/
def ClockBounded (st : BackendState) (now : Nat) : Prop :=
  ∀ s ∈ st.sensors, ∀ t, s.lastReading = some t → t ≤ now

/-- Modelled from the spec: the delivery condition the specification
states for an `iot:reading` event — the client is subscribed to the
sensor's topic or to the catch-all `all-updates` topic.  Used as the
refinement target; the code's delivery set is `iotReadingRecipients`. -/
def specSubscribedToReading (ws : WSState) (c : ClientId) (sensorId : SensorId) : Bool :=
  inRoom ws c ("sensor:" ++ sensorId) || inRoom ws c "all-updates"

/-! ## Theorems -/

/-- C10: for every event name and payload, calling `broadcastToClients`
or `sendToRoom` before the WebSocket server has been initialized, or
`sendToClient` with a connection id that is not in the connected-clients
map, returns normally as a no-op: nothing is emitted (the functions are
total, so no exception is thrown). -/
theorem uninitialized_sends_are_noops {α : Type} (ws : WSState) (room : Room)
    (event : String) (data : α) (clientId : ClientId)
    (hinit : ws.initialized = false)
    (hclient : ws.connectedClients.contains clientId = false) :
    broadcastToClients ws event data = [] ∧
    sendToRoom ws room event data = [] ∧
    sendToClient ws clientId event data = [] := by
  refine ⟨?_, ?_, ?_⟩ <;>
    simp only [broadcastToClients, sendToRoom, sendToClient, hinit, hclient,
      if_neg, Bool.false_eq_true, ite_false]

/-- Witness for C10 at the module-load state and an unknown client id. -/
theorem uninitialized_sends_are_noops_witness :
    broadcastToClients WSState.empty "iot:reading" (0 : Nat) = [] ∧
    sendToRoom WSState.empty "weather" "iot:reading" (0 : Nat) = [] ∧
    sendToClient WSState.empty "c9" "iot:reading" (0 : Nat) = [] :=
  uninitialized_sends_are_noops WSState.empty "weather" "iot:reading" 0 "c9"
    (by decide) (by decide)

/-- C1 counterexample: a connected client that subscribed only to
sensor `X` still receives the `iot:reading` broadcast for sensor `Y`,
because `handleSensorData` and the REST submission path emit readings
through `broadcastToClients`, which `io.emit`s to every connected
socket and never consults the subscription rooms.  The spec's delivery
condition (`specSubscribedToReading`) is false for this client while
the code delivers to it, so the claimed iff fails. -/
theorem reading_broadcast_ignores_subscriptions :
    "c1" ∈ iotReadingRecipients
        (subscribeSensor (handleConnection (initializeWebSocket WSState.empty) "c1") "c1" "X")
        "Y" ∧
    specSubscribedToReading
        (subscribeSensor (handleConnection (initializeWebSocket WSState.empty) "c1") "c1" "X")
        "c1" "Y" = false := by
  decide

/-- Projecting the recipients out of an `io.emit` fan-out yields the
client list itself. -/
theorem map_fst_emissions {α : Type} (l : List ClientId) (event : String) (data : α) :
    (l.map (fun c => (c, event, data))).map (fun e => e.1) = l := by
  induction l with
  | nil => rfl
  | cons c cs ih => simp only [List.map_cons, ih]

/-- C1 amended: once the server is initialized, an `iot:reading`
broadcast is delivered to exactly the currently connected clients,
regardless of any `subscribe:sensor` / `subscribe:all` room membership;
subscriptions only affect `sendToRoom`, which the reading path never
calls. -/
theorem reading_broadcast_reaches_all_connected (ws : WSState) (sensorId : SensorId) :
    iotReadingRecipients { ws with initialized := true } sensorId
      = ws.connectedClients := by
  simp only [iotReadingRecipients, broadcastToClients, if_true]
  exact map_fst_emissions ws.connectedClients "iot:reading" sensorId

/-- C2 counterexample: when `reading.save()` rejects, `handleSensorData`
jumps to its `catch` before reaching the `broadcastToClients` call, so
the persistence failure suppresses the broadcast — no `iot:reading`
event is emitted and nothing is persisted. -/
theorem save_failure_suppresses_broadcast :
    (handleSensorData 0 false "s1" [("temperature", 21)] ⟨[], [], []⟩).broadcasts = [] ∧
    (handleSensorData 0 false "s1" [("temperature", 21)] ⟨[], [], []⟩).readings = [] := by
  decide

/-- C2 amended: persistence and broadcast are chained inside one `try`
block, not independent: when the save succeeds the handler persists the
normalized reading and then broadcasts the same event; when the save
fails the handler returns normally with the state untouched — neither a
persisted reading nor a broadcast is produced (the error is only
logged).  A broadcast failure cannot affect persistence, since the
broadcast runs strictly after the save. -/
theorem sensor_data_persist_then_broadcast (now : Nat) (sensorId : SensorId)
    (payload : DataMap) (st : BackendState) :
    handleSensorData now true sensorId payload st =
      { st with
        readings := st.readings ++ [⟨sensorId, now, buildReadingData payload, "good"⟩]
        broadcasts := st.broadcasts ++
          [.iotReading ⟨sensorId, now, buildReadingData payload, none⟩] } ∧
    handleSensorData now false sensorId payload st = st := by
  constructor <;> rfl

/-- C4: a malformed payload (one on which `JSON.parse` throws) on any
topic leaves the ingestion handler's state untouched — no reading is
persisted and no event is broadcast — and the handler returns normally;
processing any subsequent message is exactly as if the malformed one
had never arrived. -/
theorem malformed_payload_is_ignored (now n2 : Nat) (saveOk s2 : Bool)
    (topic t2 : String) (m2 : Option DataMap) (st : BackendState) :
    handleMQTTMessage now saveOk topic none st = st ∧
    (handleMQTTMessage now saveOk topic none st).readings = st.readings ∧
    (handleMQTTMessage now saveOk topic none st).broadcasts = st.broadcasts ∧
    handleMQTTMessage n2 s2 t2 m2 (handleMQTTMessage now saveOk topic none st)
      = handleMQTTMessage n2 s2 t2 m2 st := by
  refine ⟨rfl, rfl, rfl, rfl⟩

/-- C9 counterexample: the weather pull's axios timeout is 10000 ms —
ten seconds, not single-digit seconds — and when the upstream is
unresponsive the call fails with the plain wrapped `Error` produced by
the `catch` block (`FetchError.genericError`); the code defines no
`UpstreamTimeoutError` class anywhere. -/
theorem weather_timeout_is_ten_seconds :
    weatherRequestTimeoutMs = 10000 ∧
    ¬ weatherRequestTimeoutMs / 1000 ≤ 9 ∧
    (fetchWeatherFromAPI .unresponsive).1 =
      .error (.genericError ("Failed to fetch weather data: " ++ axiosTimeoutMessage)) := by
  refine ⟨rfl, by decide, rfl⟩

/-- C9 amended: every weather pull is bounded by a ten-second axios
timeout; when the upstream is unresponsive the operation fails with a
generic `Error` whose message wraps the axios timeout message, surfaced
to the caller rather than hanging; and the function makes exactly one
upstream attempt — it contains no retry. -/
theorem weather_fetch_single_bounded_attempt (upstream : UpstreamBehavior) :
    (fetchWeatherFromAPI upstream).2 = 1 ∧
    weatherRequestTimeoutMs = 10000 ∧
    (fetchWeatherFromAPI .unresponsive).1 =
      .error (.genericError ("Failed to fetch weather data: " ++ axiosTimeoutMessage)) := by
  refine ⟨?_, rfl, rfl⟩
  cases upstream with
  | respondsAfter ms t code =>
    simp only [fetchWeatherFromAPI]
    split <;> rfl
  | unresponsive => rfl

/-- C6: submitting a reading for an existing but inactive sensor fails
with the 400 `Sensor is inactive` error and leaves the entire backend
state unchanged: no reading is persisted, no `iot:reading` event is
broadcast, and the sensor's `lastReading` is untouched. -/
theorem inactive_sensor_submission_rejected (now : Nat) (body : PostReadingBody)
    (st : BackendState) (sensor : Sensor)
    (hid : body.sensorId ≠ "")
    (hfind : st.sensors.find? (fun s => s.sensorId = body.sensorId) = some sensor)
    (hinactive : sensor.isActive = false) :
    (postReadingHandler now body st).1 = .apiError "Sensor is inactive" 400 ∧
    (postReadingHandler now body st).2 = st := by
  have h : postReadingHandler now body st = (.apiError "Sensor is inactive" 400, st) := by
    unfold postReadingHandler
    rw [if_neg hid, hfind]
    simp [hinactive]
  rw [h]
  exact ⟨rfl, rfl⟩

/-- Witness for C6 at a one-sensor store whose sensor is inactive. -/
theorem inactive_sensor_submission_rejected_witness :
    (postReadingHandler 5 ⟨"s1", [("temperature", 1)], none⟩
        ⟨[⟨"s1", "n", "temperature", ⟨0, 0, "loc", 0⟩, false, none⟩], [], []⟩).1
      = .apiError "Sensor is inactive" 400 ∧
    (postReadingHandler 5 ⟨"s1", [("temperature", 1)], none⟩
        ⟨[⟨"s1", "n", "temperature", ⟨0, 0, "loc", 0⟩, false, none⟩], [], []⟩).2
      = ⟨[⟨"s1", "n", "temperature", ⟨0, 0, "loc", 0⟩, false, none⟩], [], []⟩ :=
  inactive_sensor_submission_rejected 5 ⟨"s1", [("temperature", 1)], none⟩
    ⟨[⟨"s1", "n", "temperature", ⟨0, 0, "loc", 0⟩, false, none⟩], [], []⟩
    ⟨"s1", "n", "temperature", ⟨0, 0, "loc", 0⟩, false, none⟩
    (by decide) (by decide) rfl

/-- Inserting into the timestamp-descending order grows the list by one. -/
theorem length_insertDesc (r : Reading) (l : List Reading) :
    (insertDesc r l).length = l.length + 1 := by
  induction l with
  | nil => rfl
  | cons x xs ih =>
    simp only [insertDesc]
    split
    · simp only [List.length_cons, ih]
    · simp only [List.length_cons]

/-- The timestamp-descending sort preserves length. -/
theorem length_sortByTimestampDesc (l : List Reading) :
    (sortByTimestampDesc l).length = l.length := by
  induction l with
  | nil => rfl
  | cons x xs ih =>
    simp only [sortByTimestampDesc, List.foldr_cons] at ih ⊢
    rw [length_insertDesc, ih, List.length_cons]

/-- C7: on a 25-reading store, `GET /api/iot/readings?page=2&limit=10`
returns exactly elements 11–20 of the timestamp-descending order (ten
readings) with `pages = 3`; and `validatePagination` rejects every
`limit` above the fixed cap of 100. -/
theorem readings_page2_of_25 (readings : List Reading) (pageParam : Option Int)
    (limitParam : Int) (h25 : readings.length = 25) (hcap : 100 < limitParam) :
    (getReadingsHandler 2 10 none readings).1
        = ((sortByTimestampDesc readings).drop 10).take 10 ∧
    (getReadingsHandler 2 10 none readings).1.length = 10 ∧
    (getReadingsHandler 2 10 none readings).2 = ⟨2, 10, 25, 3⟩ ∧
    validatePagination pageParam (some limitParam) = false := by
  refine ⟨rfl, ?_, ?_, ?_⟩
  · simp [getReadingsHandler, List.length_take, List.length_drop,
      length_sortByTimestampDesc, h25]
  · simp [getReadingsHandler, jsMathCeilDiv, h25]
  · have hval : validatePagination pageParam (some limitParam)
        = ((pageParam.all fun p => decide (1 ≤ p)) &&
            decide (1 ≤ limitParam ∧ limitParam ≤ 100)) := rfl
    have hfalse : decide (1 ≤ limitParam ∧ limitParam ≤ 100) = false := by
      simp only [decide_eq_false_iff_not]
      omega
    rw [hval, hfalse, Bool.and_false]

/-- Witness for C7 on 25 concrete readings and `limit = 101`. -/
theorem readings_page2_of_25_witness :
    (getReadingsHandler 2 10 none
        ((List.range 25).map (fun i => ⟨"s", i, [], "good"⟩))).1
      = ((sortByTimestampDesc
          ((List.range 25).map (fun i => ⟨"s", i, [], "good"⟩))).drop 10).take 10 ∧
    (getReadingsHandler 2 10 none
        ((List.range 25).map (fun i => ⟨"s", i, [], "good"⟩))).1.length = 10 ∧
    (getReadingsHandler 2 10 none
        ((List.range 25).map (fun i => ⟨"s", i, [], "good"⟩))).2 = ⟨2, 10, 25, 3⟩ ∧
    validatePagination none (some 101) = false :=
  readings_page2_of_25 ((List.range 25).map (fun i => ⟨"s", i, [], "good"⟩))
    none 101 (by decide) (by decide)

/-- C3 counterexample: the tree endpoint formats leaf values with
`value.toFixed(2)` — two decimal places, not one.  For a sensor whose
latest reading is `temperature = 1`, the leaf carries `"1.00"` (with
unit `°C`), while one-decimal formatting of the same value is `"1.0"`. -/
theorem tree_leaf_value_not_one_decimal :
    getTreeHandler [⟨"s1", "Sensor One", "temperature", ⟨0, 0, "loc", 0⟩, true, none⟩]
        [⟨"s1", 5, [("temperature", 1)], "good"⟩]
      = [⟨"Sensor One", "s1", true, [⟨5, [⟨"temperature", "1.00", "°C"⟩]⟩]⟩] ∧
    toFixed 1 (1 : ℚ) = "1.0" ∧
    ("1.00" : String) ≠ "1.0" := by
  decide

/-- C3 amended: each numeric-field leaf of the tree snapshot equals the
corresponding field of that sensor's latest reading formatted to two
decimal places (`toFixed(2)`), annotated with the fixed field→unit
table (temperature `°C`, humidity `%`, pressure `hPa`, windspeed
`km/h`, winddirection `°`, battery `%`, signal_strength `dBm`), and
every field name outside that table gets the empty unit. -/
theorem tree_leaves_two_decimals_with_units (sensors : List Sensor)
    (readings : List Reading) :
    (∀ node ∈ getTreeHandler sensors readings, ∀ rn ∈ node.children,
      ∃ r, findLatestReading readings node.sensorId = some r ∧
        rn.timestamp = r.timestamp ∧
        rn.children = r.data.map (fun kv => ⟨kv.1, toFixed 2 kv.2, getUnit kv.1⟩)) ∧
    getUnit "temperature" = "°C" ∧ getUnit "humidity" = "%" ∧
    getUnit "pressure" = "hPa" ∧ getUnit "windspeed" = "km/h" ∧
    getUnit "winddirection" = "°" ∧ getUnit "battery" = "%" ∧
    getUnit "signal_strength" = "dBm" ∧
    (∀ f, f ∉ ["temperature", "humidity", "pressure", "windspeed",
        "winddirection", "battery", "signal_strength"] → getUnit f = "") := by
  refine ⟨?_, rfl, rfl, rfl, rfl, rfl, rfl, rfl, ?_⟩
  · intro node hnode rn hrn
    simp only [getTreeHandler, List.mem_map] at hnode
    obtain ⟨s, hs, rfl⟩ := hnode
    dsimp only at hrn ⊢
    cases hlr : findLatestReading readings s.sensorId with
    | none => rw [hlr] at hrn; simp at hrn
    | some r =>
      rw [hlr] at hrn
      simp only [List.mem_singleton] at hrn
      subst hrn
      exact ⟨r, rfl, rfl, rfl⟩
  · intro f hf
    simp only [List.mem_cons, List.not_mem_nil, or_false, not_or] at hf
    obtain ⟨h1, h2, h3, h4, h5, h6, h7⟩ := hf
    simp [getUnit, h1, h2, h3, h4, h5, h6, h7]

/-- Witness for C3 amended at a one-sensor, one-reading store and the
unknown field name `foo`. -/
theorem tree_leaves_two_decimals_with_units_witness :
    (∃ r, findLatestReading [⟨"s1", 5, [("temperature", 1)], "good"⟩] "s1" = some r ∧
      (5 : Nat) = r.timestamp ∧
      [(⟨"temperature", "1.00", "°C"⟩ : TreeLeaf)]
        = r.data.map (fun kv => ⟨kv.1, toFixed 2 kv.2, getUnit kv.1⟩)) ∧
    getUnit "foo" = "" := by
  have h := tree_leaves_two_decimals_with_units
    [⟨"s1", "Sensor One", "temperature", ⟨0, 0, "loc", 0⟩, true, none⟩]
    [⟨"s1", 5, [("temperature", 1)], "good"⟩]
  refine ⟨?_, h.2.2.2.2.2.2.2.2 "foo" (by decide)⟩
  exact h.1 ⟨"Sensor One", "s1", true, [⟨5, [⟨"temperature", "1.00", "°C"⟩]⟩]⟩
    (by decide) ⟨5, [⟨"temperature", "1.00", "°C"⟩]⟩ (by decide)

/-- Membership in an `insertDesc` result is membership in the input
plus the inserted reading. -/
theorem mem_insertDesc {a r : Reading} {l : List Reading} :
    a ∈ insertDesc r l ↔ a = r ∨ a ∈ l := by
  induction l with
  | nil => simp [insertDesc]
  | cons x xs ih =>
    simp only [insertDesc]
    split
    · simp only [List.mem_cons, ih]
      tauto
    · simp only [List.mem_cons]

/-- `insertDesc` preserves the timestamp-descending pairwise order. -/
theorem pairwise_insertDesc (r : Reading) (l : List Reading)
    (h : l.Pairwise (fun a b => b.timestamp ≤ a.timestamp)) :
    (insertDesc r l).Pairwise (fun a b => b.timestamp ≤ a.timestamp) := by
  induction l with
  | nil => simp [insertDesc]
  | cons x xs ih =>
    rw [List.pairwise_cons] at h
    obtain ⟨hx, hxs⟩ := h
    simp only [insertDesc]
    split
    · rename_i hcond
      rw [List.pairwise_cons]
      refine ⟨?_, ih hxs⟩
      intro b hb
      rcases mem_insertDesc.mp hb with rfl | hbm
      · exact hcond.1
      · exact hx b hbm
    · rename_i hcond
      have hxr : x.timestamp ≤ r.timestamp := by
        by_cases he : r.timestamp = x.timestamp
        · omega
        · exact Nat.le_of_not_lt (fun hlt => hcond ⟨Nat.le_of_lt hlt, he⟩)
      rw [List.pairwise_cons]
      refine ⟨?_, List.pairwise_cons.mpr ⟨hx, hxs⟩⟩
      intro b hb
      rcases List.mem_cons.mp hb with rfl | hbm
      · exact hxr
      · exact le_trans (hx b hbm) hxr

/-- The sorted list is pairwise timestamp-descending. -/
theorem pairwise_sortByTimestampDesc (l : List Reading) :
    (sortByTimestampDesc l).Pairwise (fun a b => b.timestamp ≤ a.timestamp) := by
  induction l with
  | nil => simp [sortByTimestampDesc]
  | cons x xs ih => exact pairwise_insertDesc x _ ih

/-- The sort neither adds nor loses readings. -/
theorem mem_sortByTimestampDesc {a : Reading} {l : List Reading} :
    a ∈ sortByTimestampDesc l ↔ a ∈ l := by
  induction l with
  | nil => simp [sortByTimestampDesc]
  | cons x xs ih =>
    simp only [sortByTimestampDesc, List.foldr_cons] at ih ⊢
    rw [mem_insertDesc, List.mem_cons, ih]

/-- Everything `groupFirstBySensor` keeps comes from the input list. -/
theorem mem_of_mem_groupFirstBySensor {r : Reading} :
    ∀ (seen : List SensorId) (l : List Reading),
      r ∈ groupFirstBySensor seen l → r ∈ l := by
  intro seen l
  induction l generalizing seen with
  | nil => intro h; simp [groupFirstBySensor] at h
  | cons x xs ih =>
    intro h
    simp only [groupFirstBySensor] at h
    split at h
    · exact List.mem_cons_of_mem x (ih seen h)
    · rcases List.mem_cons.mp h with rfl | hm
      · exact List.mem_cons_self _ _
      · exact List.mem_cons_of_mem _ (ih _ hm)

/-- The kept readings carry pairwise-distinct sensor ids, all outside
`seen`. -/
theorem groupFirstBySensor_ids (seen : List SensorId) (l : List Reading) :
    ((groupFirstBySensor seen l).map Reading.sensorId).Nodup ∧
    ∀ sid ∈ (groupFirstBySensor seen l).map Reading.sensorId, sid ∉ seen := by
  induction l generalizing seen with
  | nil => simp [groupFirstBySensor]
  | cons x xs ih =>
    simp only [groupFirstBySensor]
    split
    · exact ih seen
    · rename_i hns
      obtain ⟨hnd, hdisj⟩ := ih (x.sensorId :: seen)
      refine ⟨?_, ?_⟩
      · simp only [List.map_cons, List.nodup_cons]
        exact ⟨fun hmem => (hdisj _ hmem) (List.mem_cons_self _ _), hnd⟩
      · intro sid hsid
        simp only [List.map_cons, List.mem_cons] at hsid
        rcases hsid with rfl | hm
        · exact hns
        · exact fun hcon => (hdisj sid hm) (List.mem_cons_of_mem _ hcon)

/-- Every sensor id of the input that is not in `seen` survives
grouping. -/
theorem groupFirstBySensor_covers {sid : SensorId} :
    ∀ (seen : List SensorId) (l : List Reading),
      sid ∈ l.map Reading.sensorId → sid ∉ seen →
      sid ∈ (groupFirstBySensor seen l).map Reading.sensorId := by
  intro seen l
  induction l generalizing seen with
  | nil => intro hmem _; simp at hmem
  | cons x xs ih =>
    intro hmem hns
    simp only [List.map_cons, List.mem_cons] at hmem
    simp only [groupFirstBySensor]
    split
    · rename_i hseen
      rcases hmem with rfl | hm
      · exact absurd hseen hns
      · exact ih seen hm hns
    · rcases hmem with rfl | hm
      · simp
      · simp only [List.map_cons, List.mem_cons]
        by_cases heq : sid = x.sensorId
        · exact Or.inl heq
        · exact Or.inr (ih (x.sensorId :: seen) hm (by simp [hns, heq]))

/-- On a timestamp-descending list, each reading kept by grouping has a
timestamp at least that of every reading of the same sensor. -/
theorem groupFirstBySensor_maximal {r r' : Reading} :
    ∀ (seen : List SensorId) (l : List Reading),
      l.Pairwise (fun a b => b.timestamp ≤ a.timestamp) →
      r ∈ groupFirstBySensor seen l → r' ∈ l →
      r'.sensorId = r.sensorId → r'.timestamp ≤ r.timestamp := by
  intro seen l
  induction l generalizing seen with
  | nil => intro _ hr _ _; simp [groupFirstBySensor] at hr
  | cons x xs ih =>
    intro hpw hr hr' hid
    rw [List.pairwise_cons] at hpw
    obtain ⟨hx, hxs⟩ := hpw
    simp only [groupFirstBySensor] at hr
    split at hr
    · rename_i hseen
      rcases List.mem_cons.mp hr' with rfl | hm
      · have hnot : r.sensorId ∉ seen :=
          (groupFirstBySensor_ids seen xs).2 r.sensorId
            (List.mem_map_of_mem Reading.sensorId hr)
        rw [hid] at hseen
        exact absurd hseen hnot
      · exact ih seen hxs hr hm hid
    · rcases List.mem_cons.mp hr with rfl | hrm
      · rcases List.mem_cons.mp hr' with rfl | hm
        · exact le_refl _
        · exact hx r' hm
      · rcases List.mem_cons.mp hr' with rfl | hm
        · have hnot : r.sensorId ∉ r'.sensorId :: seen :=
            (groupFirstBySensor_ids (r'.sensorId :: seen) xs).2 r.sensorId
              (List.mem_map_of_mem Reading.sensorId hrm)
          have hin : r.sensorId ∈ r'.sensorId :: seen := by
            rw [← hid]
            exact List.mem_cons_self _ _
          exact absurd hin hnot
        · exact ih (x.sensorId :: seen) hxs hrm hm hid

/-- Pairing each element with derived data and projecting back is the
identity. -/
theorem map_fst_pair {α β : Type} (l : List α) (g : α → β) :
    (l.map (fun a => (a, g a))).map (fun e => e.1) = l := by
  induction l with
  | nil => rfl
  | cons a xs ih => simp only [List.map_cons, ih]

/-- The sensor-info enrichment does not alter which readings the
latest-per-sensor endpoint returns. -/
theorem getLatestReadingsHandler_fst (sensors : List Sensor) (readings : List Reading) :
    (getLatestReadingsHandler sensors readings).map (fun e => e.1)
      = latestPerSensor readings := by
  simp only [getLatestReadingsHandler]
  exact map_fst_pair (latestPerSensor readings)
    (fun r => sensors.find? (fun s => s.sensorId = r.sensorId))

/-- C5: the latest-per-sensor endpoint returns exactly one entry per
distinct `sensorId` present among the stored readings, and each
returned entry's timestamp is `≥` the timestamp of every reading with
that `sensorId` (the `$first` of the stably sorted pipeline breaks ties
by insertion order). -/
theorem latest_per_sensor_unique_and_maximal (sensors : List Sensor)
    (readings : List Reading) :
    ((getLatestReadingsHandler sensors readings).map (fun e => e.1.sensorId)).Nodup ∧
    (∀ sid, sid ∈ readings.map Reading.sensorId ↔
      sid ∈ (getLatestReadingsHandler sensors readings).map (fun e => e.1.sensorId)) ∧
    (∀ e ∈ getLatestReadingsHandler sensors readings, ∀ r' ∈ readings,
      r'.sensorId = e.1.sensorId → r'.timestamp ≤ e.1.timestamp) := by
  have hids : (getLatestReadingsHandler sensors readings).map (fun e => e.1.sensorId)
      = (latestPerSensor readings).map Reading.sensorId := by
    rw [← getLatestReadingsHandler_fst sensors readings, List.map_map]
    rfl
  refine ⟨?_, ?_, ?_⟩
  · rw [hids]
    exact (groupFirstBySensor_ids [] (sortByTimestampDesc readings)).1
  · intro sid
    rw [hids]
    simp only [latestPerSensor]
    constructor
    · intro hmem
      obtain ⟨r, hr, rfl⟩ := List.mem_map.mp hmem
      exact groupFirstBySensor_covers [] _
        (List.mem_map_of_mem _ (mem_sortByTimestampDesc.mpr hr)) (by simp)
    · intro hmem
      obtain ⟨r, hr, rfl⟩ := List.mem_map.mp hmem
      exact List.mem_map_of_mem _
        (mem_sortByTimestampDesc.mp (mem_of_mem_groupFirstBySensor [] _ hr))
  · intro e he r' hr' hid
    have he1 : e.1 ∈ latestPerSensor readings := by
      rw [← getLatestReadingsHandler_fst sensors readings]
      exact List.mem_map_of_mem _ he
    simp only [latestPerSensor] at he1
    exact groupFirstBySensor_maximal [] (sortByTimestampDesc readings)
      (pairwise_sortByTimestampDesc readings) he1
      (mem_sortByTimestampDesc.mpr hr') hid

/-- Witness for C5 on a concrete three-reading store with two sensors. -/
theorem latest_per_sensor_unique_and_maximal_witness :
    ((getLatestReadingsHandler []
        [⟨"a", 5, [], "good"⟩, ⟨"b", 7, [], "good"⟩, ⟨"a", 9, [], "good"⟩]).map
          (fun e => e.1.sensorId)).Nodup ∧
    (∀ sid, sid ∈ ([⟨"a", 5, [], "good"⟩, ⟨"b", 7, [], "good"⟩,
        ⟨"a", 9, [], "good"⟩] : List Reading).map Reading.sensorId ↔
      sid ∈ (getLatestReadingsHandler []
        [⟨"a", 5, [], "good"⟩, ⟨"b", 7, [], "good"⟩, ⟨"a", 9, [], "good"⟩]).map
          (fun e => e.1.sensorId)) ∧
    (∀ e ∈ getLatestReadingsHandler []
        [⟨"a", 5, [], "good"⟩, ⟨"b", 7, [], "good"⟩, ⟨"a", 9, [], "good"⟩],
      ∀ r' ∈ ([⟨"a", 5, [], "good"⟩, ⟨"b", 7, [], "good"⟩,
        ⟨"a", 9, [], "good"⟩] : List Reading),
      r'.sensorId = e.1.sensorId → r'.timestamp ≤ e.1.timestamp) :=
  latest_per_sensor_unique_and_maximal []
    [⟨"a", 5, [], "good"⟩, ⟨"b", 7, [], "good"⟩, ⟨"a", 9, [], "good"⟩]

/-- `lastReadingLE` is reflexive. -/
theorem lastReadingLE_refl (a : Option Nat) : lastReadingLE a a :=
  fun t ht => ⟨t, ht, le_refl t⟩

/-- `lastReadingLE` is transitive. -/
theorem lastReadingLE_trans {a b c : Option Nat}
    (hab : lastReadingLE a b) (hbc : lastReadingLE b c) : lastReadingLE a c := by
  intro t ht
  obtain ⟨u, hu, htu⟩ := hab t ht
  obtain ⟨v, hv, huv⟩ := hbc u hu
  exact ⟨v, hv, le_trans htu huv⟩

/-- `handleSensorData` writes readings and broadcasts only. -/
theorem handleSensorData_sensors (now : Nat) (saveOk : Bool) (sid : SensorId)
    (payload : DataMap) (st : BackendState) :
    (handleSensorData now saveOk sid payload st).sensors = st.sensors := by
  cases saveOk <;> rfl

/-- MQTT ingestion never touches the `sensors` collection:
`handleSensorData` writes readings and broadcasts only, and the status
and weather handlers only broadcast. -/
theorem handleMQTTMessage_sensors (now : Nat) (saveOk : Bool) (topic : String)
    (msg : Option DataMap) (st : BackendState) :
    (handleMQTTMessage now saveOk topic msg st).sensors = st.sensors := by
  cases msg with
  | none => rfl
  | some payload =>
    simp only [handleMQTTMessage]
    split
    · exact handleSensorData_sensors now saveOk (topicPart2 topic) payload st
    · split
      · rfl
      · split <;> rfl

/-- A first-match update whose function changes neither `sensorId` nor
`lastReading` leaves every id's resolved `lastReading` untouched. -/
theorem find_lastReading_updateFirst (p : Sensor → Bool) (f : Sensor → Sensor)
    (hid : ∀ s, (f s).sensorId = s.sensorId)
    (hlr : ∀ s, (f s).lastReading = s.lastReading) (sid : SensorId) :
    ∀ l : List Sensor,
      ((updateFirstSensor p f l).find? (fun s => s.sensorId = sid)).bind
          (fun s => s.lastReading)
        = (l.find? (fun s => s.sensorId = sid)).bind (fun s => s.lastReading) := by
  intro l
  induction l with
  | nil => rfl
  | cons s ss ih =>
    simp only [updateFirstSensor]
    split
    · by_cases hq : s.sensorId = sid
      · rw [List.find?_cons_of_pos _ (by simp [hid, hq]),
          List.find?_cons_of_pos _ (by simp [hq])]
        simp [hlr]
      · rw [List.find?_cons_of_neg _ (by simp [hid, hq]),
          List.find?_cons_of_neg _ (by simp [hq])]
    · by_cases hq : s.sensorId = sid
      · rw [List.find?_cons_of_pos _ (by simp [hq]),
          List.find?_cons_of_pos _ (by simp [hq])]
      · rw [List.find?_cons_of_neg _ (by simp [hq]),
          List.find?_cons_of_neg _ (by simp [hq])]
        exact ih

/-- Setting the first matching sensor's `lastReading` to the current
time can only move any id's resolved `lastReading` upward, provided
every recorded value is at most the current time. -/
theorem updateFirst_set_lastReading (sid tgt : SensorId) (now : Nat) :
    ∀ l : List Sensor,
      (∀ s ∈ l, ∀ t, s.lastReading = some t → t ≤ now) →
      lastReadingLE
        ((l.find? (fun s => s.sensorId = sid)).bind (fun s => s.lastReading))
        (((updateFirstSensor (fun s => s.sensorId = tgt)
            (fun s => { s with lastReading := some now }) l).find?
              (fun s => s.sensorId = sid)).bind (fun s => s.lastReading)) := by
  intro l
  induction l with
  | nil =>
    intro _ t ht
    simp at ht
  | cons s ss ih =>
    intro hcb
    simp only [updateFirstSensor]
    split
    · by_cases hq : s.sensorId = sid
      · rw [List.find?_cons_of_pos _ (by simp [hq]),
          List.find?_cons_of_pos _ (by simp [hq])]
        intro t ht
        exact ⟨now, rfl, hcb s (List.mem_cons_self _ _) t ht⟩
      · rw [List.find?_cons_of_neg _ (by simp [hq]),
          List.find?_cons_of_neg _ (by simp [hq])]
        exact lastReadingLE_refl _
    · by_cases hq : s.sensorId = sid
      · rw [List.find?_cons_of_pos _ (by simp [hq]),
          List.find?_cons_of_pos _ (by simp [hq])]
        exact lastReadingLE_refl _
      · rw [List.find?_cons_of_neg _ (by simp [hq]),
          List.find?_cons_of_neg _ (by simp [hq])]
        exact ih (fun s' hs' => hcb s' (List.mem_cons_of_mem _ hs'))

/-- Every sensor in a first-match update is either an original sensor
or the image of one under the update function. -/
theorem mem_updateFirstSensor {s' : Sensor} (p : Sensor → Bool) (f : Sensor → Sensor) :
    ∀ l : List Sensor, s' ∈ updateFirstSensor p f l →
      s' ∈ l ∨ ∃ s ∈ l, s' = f s := by
  intro l
  induction l with
  | nil => intro h; exact absurd h (List.not_mem_nil s')
  | cons s ss ih =>
    intro h
    simp only [updateFirstSensor] at h
    split at h
    · rcases List.mem_cons.mp h with rfl | hm
      · exact Or.inr ⟨s, List.mem_cons_self _ _, rfl⟩
      · exact Or.inl (List.mem_cons_of_mem _ hm)
    · rcases List.mem_cons.mp h with rfl | hm
      · exact Or.inl (List.mem_cons_self _ _)
      · rcases ih hm with hl | ⟨x, hx, rfl⟩
        · exact Or.inl (List.mem_cons_of_mem _ hl)
        · exact Or.inr ⟨x, List.mem_cons_of_mem _ hx, rfl⟩

/-- Branch description: the PUT handler on an unknown sensor id. -/
theorem putSensorHandler_notfound (sensorId : SensorId) (b : SensorUpdateBody)
    (st : BackendState)
    (hfind : st.sensors.find? (fun s => s.sensorId = sensorId) = none) :
    putSensorHandler sensorId b st = (.apiError "Sensor not found" 404, st) := by
  unfold putSensorHandler
  rw [hfind]

/-- Branch description: the PUT handler on a known sensor id. -/
theorem putSensorHandler_found (sensorId : SensorId) (b : SensorUpdateBody)
    (st : BackendState) (s : Sensor)
    (hfind : st.sensors.find? (fun x => x.sensorId = sensorId) = some s) :
    putSensorHandler sensorId b st =
      (.ok 200,
        { st with
          sensors := updateFirstSensor (fun x => x.sensorId = sensorId)
            (applySensorUpdate b) st.sensors }) := by
  unfold putSensorHandler
  rw [hfind]

/-- Branch description: submission with an empty sensor id fails
validation. -/
theorem postReadingHandler_empty (now : Nat) (body : PostReadingBody)
    (st : BackendState) (h1 : body.sensorId = "") :
    postReadingHandler now body st = (.validationFailed, st) := by
  unfold postReadingHandler
  rw [if_pos h1]

/-- Branch description: submission for an unknown sensor. -/
theorem postReadingHandler_notfound (now : Nat) (body : PostReadingBody)
    (st : BackendState) (h1 : body.sensorId ≠ "")
    (hfind : st.sensors.find? (fun s => s.sensorId = body.sensorId) = none) :
    postReadingHandler now body st = (.apiError "Sensor not found" 404, st) := by
  unfold postReadingHandler
  rw [if_neg h1, hfind]

/-- Branch description: submission for an inactive sensor. -/
theorem postReadingHandler_inactive (now : Nat) (body : PostReadingBody)
    (st : BackendState) (sensor : Sensor) (h1 : body.sensorId ≠ "")
    (hfind : st.sensors.find? (fun s => s.sensorId = body.sensorId) = some sensor)
    (hact : sensor.isActive = false) :
    postReadingHandler now body st = (.apiError "Sensor is inactive" 400, st) := by
  unfold postReadingHandler
  rw [if_neg h1, hfind]
  simp [hact]

/-- Branch description: successful submission persists the reading,
stamps the sensor's `lastReading` with the reading's timestamp, and
broadcasts the event with the sensor summary. -/
theorem postReadingHandler_success (now : Nat) (body : PostReadingBody)
    (st : BackendState) (sensor : Sensor) (h1 : body.sensorId ≠ "")
    (hfind : st.sensors.find? (fun s => s.sensorId = body.sensorId) = some sensor)
    (hact : sensor.isActive = true) :
    postReadingHandler now body st =
      (.ok 201,
        { st with
          readings := st.readings ++
            [⟨body.sensorId, now, body.data, body.quality.getD "good"⟩]
          sensors := updateFirstSensor (fun s => s.sensorId = body.sensorId)
            (fun s => { s with lastReading := some now }) st.sensors
          broadcasts := st.broadcasts ++ [.iotReading ⟨body.sensorId, now, body.data,
            some ⟨sensor.name, sensor.sensorType, sensor.location⟩⟩] }) := by
  unfold postReadingHandler
  rw [if_neg h1, hfind]
  simp [hact]

/-- The admin PUT handler leaves every sensor's `lastReading` exactly
as it was: `lastReading` is not among the fields it copies from the
body. -/
theorem putSensorHandler_lastReading (sensorId : SensorId) (b : SensorUpdateBody)
    (st : BackendState) (sid : SensorId) :
    lastReadingOf (putSensorHandler sensorId b st).2 sid = lastReadingOf st sid := by
  cases hfind : st.sensors.find? (fun s => s.sensorId = sensorId) with
  | none => rw [putSensorHandler_notfound sensorId b st hfind]
  | some s =>
    rw [putSensorHandler_found sensorId b st s hfind]
    simp only [lastReadingOf]
    exact find_lastReading_updateFirst _ (applySensorUpdate b)
      (fun x => rfl) (fun x => rfl) sid st.sensors

/-- Every failing branch of the reading submission handler returns the
state untouched. -/
theorem postReadingHandler_failure_unchanged (now : Nat) (body : PostReadingBody)
    (st : BackendState) (hfail : (postReadingHandler now body st).1 ≠ .ok 201) :
    (postReadingHandler now body st).2 = st := by
  by_cases h1 : body.sensorId = ""
  · rw [postReadingHandler_empty now body st h1]
  · cases hfind : st.sensors.find? (fun s => s.sensorId = body.sensorId) with
    | none => rw [postReadingHandler_notfound now body st h1 hfind]
    | some sensor =>
      by_cases hact : sensor.isActive = true
      · exact absurd
          (by rw [postReadingHandler_success now body st sensor h1 hfind hact]) hfail
      · rw [postReadingHandler_inactive now body st sensor h1 hfind
          (by simpa using hact)]

/-- A reading submission can only move the resolved `lastReading` of
any id upward, given a clock-sound state. -/
theorem postReadingHandler_lastReadingLE (now : Nat) (body : PostReadingBody)
    (st : BackendState) (sid : SensorId) (hcb : ClockBounded st now) :
    lastReadingLE (lastReadingOf st sid)
      (lastReadingOf (postReadingHandler now body st).2 sid) := by
  by_cases h1 : body.sensorId = ""
  · rw [postReadingHandler_empty now body st h1]
    exact lastReadingLE_refl _
  · cases hfind : st.sensors.find? (fun s => s.sensorId = body.sensorId) with
    | none =>
      rw [postReadingHandler_notfound now body st h1 hfind]
      exact lastReadingLE_refl _
    | some sensor =>
      by_cases hact : sensor.isActive = true
      · rw [postReadingHandler_success now body st sensor h1 hfind hact]
        simp only [lastReadingOf]
        exact updateFirst_set_lastReading sid body.sensorId now st.sensors hcb
      · rw [postReadingHandler_inactive now body st sensor h1 hfind
          (by simpa using hact)]
        exact lastReadingLE_refl _

/-- One step at time `now` from a clock-sound state can only move any
id's resolved `lastReading` upward. -/
theorem applyOp_lastReadingLE (now : Nat) (op : Op) (st : BackendState)
    (sid : SensorId) (hcb : ClockBounded st now) :
    lastReadingLE (lastReadingOf st sid) (lastReadingOf (applyOp now op st) sid) := by
  cases op with
  | mqttMessage topic msg saveOk =>
    show lastReadingLE _ (lastReadingOf (handleMQTTMessage now saveOk topic msg st) sid)
    simp only [lastReadingOf, handleMQTTMessage_sensors]
    exact lastReadingLE_refl _
  | restPostReading body => exact postReadingHandler_lastReadingLE now body st sid hcb
  | adminPutSensor sensorId body =>
    show lastReadingLE _ (lastReadingOf (putSensorHandler sensorId body st).2 sid)
    rw [putSensorHandler_lastReading]
    exact lastReadingLE_refl _

/-- One step at time `now` keeps the state clock-sound at `now`: the
only `lastReading` ever written is `some now`. -/
theorem applyOp_clockBounded (now : Nat) (op : Op) (st : BackendState)
    (hcb : ClockBounded st now) : ClockBounded (applyOp now op st) now := by
  cases op with
  | mqttMessage topic msg saveOk =>
    intro s hs t ht
    rw [show (applyOp now (.mqttMessage topic msg saveOk) st).sensors = st.sensors from
      handleMQTTMessage_sensors now saveOk topic msg st] at hs
    exact hcb s hs t ht
  | restPostReading body =>
    show ClockBounded (postReadingHandler now body st).2 now
    by_cases h1 : body.sensorId = ""
    · rw [postReadingHandler_empty now body st h1]
      exact hcb
    · cases hfind : st.sensors.find? (fun s => s.sensorId = body.sensorId) with
      | none =>
        rw [postReadingHandler_notfound now body st h1 hfind]
        exact hcb
      | some sensor =>
        by_cases hact : sensor.isActive = true
        · rw [postReadingHandler_success now body st sensor h1 hfind hact]
          intro s hs t ht
          rcases mem_updateFirstSensor _ _ st.sensors hs with hl | ⟨x, hx, rfl⟩
          · exact hcb s hl t ht
          · simp only [Option.some.injEq] at ht
            omega
        · rw [postReadingHandler_inactive now body st sensor h1 hfind
            (by simpa using hact)]
          exact hcb
  | adminPutSensor sensorId body =>
    show ClockBounded (putSensorHandler sensorId body st).2 now
    cases hfind : st.sensors.find? (fun s => s.sensorId = sensorId) with
    | none =>
      rw [putSensorHandler_notfound sensorId body st hfind]
      exact hcb
    | some s0 =>
      rw [putSensorHandler_found sensorId body st s0 hfind]
      intro s hs t ht
      rcases mem_updateFirstSensor _ _ st.sensors hs with hl | ⟨x, hx, rfl⟩
      · exact hcb s hl t ht
      · exact hcb x hx t ht

/-- Clock soundness is monotone in the clock. -/
theorem clockBounded_mono {st : BackendState} {a b : Nat} (h : a ≤ b)
    (hcb : ClockBounded st a) : ClockBounded st b :=
  fun s hs t ht => le_trans (hcb s hs t ht) h

/-- Along any trace from a clock-sound state, each sensor id's resolved
`lastReading` can only grow. -/
theorem runTrace_lastReadingLE (sid : SensorId) (ops : List Op) :
    ∀ (t0 : Nat) (st : BackendState), ClockBounded st t0 →
      lastReadingLE (lastReadingOf st sid)
        (lastReadingOf (runTrace t0 ops st) sid) := by
  induction ops with
  | nil => intro t0 st _; exact lastReadingLE_refl _
  | cons op rest ih =>
    intro t0 st hcb
    exact lastReadingLE_trans (applyOp_lastReadingLE t0 op st sid hcb)
      (ih (t0 + 1) (applyOp t0 op st)
        (clockBounded_mono (Nat.le_succ t0) (applyOp_clockBounded t0 op st hcb)))

/-- C8: from a clock-sound state, along every sequence of bus
ingestions, REST submissions and admin updates run under a strictly
increasing clock, each sensor's `lastReading` is monotonically
non-decreasing; it is modified only by a successful reading submission:
admin edits leave every resolved `lastReading` literally unchanged,
every failed submission returns the state untouched, and bus ingestion
(`handleSensorData` does not stamp the sensor) never changes it
either. -/
theorem last_reading_monotone_only_ingestion (ops : List Op) (t0 : Nat)
    (st : BackendState) (sid : SensorId) (hcb : ClockBounded st t0) :
    lastReadingLE (lastReadingOf st sid) (lastReadingOf (runTrace t0 ops st) sid) ∧
    (∀ (now : Nat) (sensorId : SensorId) (body : SensorUpdateBody),
      lastReadingOf (applyOp now (.adminPutSensor sensorId body) st) sid
        = lastReadingOf st sid) ∧
    (∀ (now : Nat) (body : PostReadingBody),
      (postReadingHandler now body st).1 ≠ .ok 201 →
        (postReadingHandler now body st).2 = st) ∧
    (∀ (now : Nat) (topic : String) (msg : Option DataMap) (saveOk : Bool),
      lastReadingOf (applyOp now (.mqttMessage topic msg saveOk) st) sid
        = lastReadingOf st sid) := by
  refine ⟨runTrace_lastReadingLE sid ops t0 st hcb, ?_, ?_, ?_⟩
  · intro now sensorId body
    exact putSensorHandler_lastReading sensorId body st sid
  · intro now body hfail
    exact postReadingHandler_failure_unchanged now body st hfail
  · intro now topic msg saveOk
    show lastReadingOf (handleMQTTMessage now saveOk topic msg st) sid = _
    simp only [lastReadingOf, handleMQTTMessage_sensors]

/-- Witness for C8 on a concrete one-sensor state and a trace of one
admin update followed by one submission. -/
theorem last_reading_monotone_only_ingestion_witness :
    (lastReadingLE
      (lastReadingOf ⟨[⟨"s1", "n", "temperature", ⟨0, 0, "loc", 0⟩, true, some 0⟩], [], []⟩ "s1")
      (lastReadingOf (runTrace 1
        [.adminPutSensor "s1" ⟨none, none, none, some true⟩,
         .restPostReading ⟨"s1", [("temperature", 1)], none⟩]
        ⟨[⟨"s1", "n", "temperature", ⟨0, 0, "loc", 0⟩, true, some 0⟩], [], []⟩) "s1") ∧
    (∀ (now : Nat) (sensorId : SensorId) (body : SensorUpdateBody),
      lastReadingOf (applyOp now (.adminPutSensor sensorId body)
          ⟨[⟨"s1", "n", "temperature", ⟨0, 0, "loc", 0⟩, true, some 0⟩], [], []⟩) "s1"
        = lastReadingOf
            ⟨[⟨"s1", "n", "temperature", ⟨0, 0, "loc", 0⟩, true, some 0⟩], [], []⟩ "s1") ∧
    (∀ (now : Nat) (body : PostReadingBody),
      (postReadingHandler now body
          ⟨[⟨"s1", "n", "temperature", ⟨0, 0, "loc", 0⟩, true, some 0⟩], [], []⟩).1 ≠ .ok 201 →
        (postReadingHandler now body
          ⟨[⟨"s1", "n", "temperature", ⟨0, 0, "loc", 0⟩, true, some 0⟩], [], []⟩).2
          = ⟨[⟨"s1", "n", "temperature", ⟨0, 0, "loc", 0⟩, true, some 0⟩], [], []⟩) ∧
    (∀ (now : Nat) (topic : String) (msg : Option DataMap) (saveOk : Bool),
      lastReadingOf (applyOp now (.mqttMessage topic msg saveOk)
          ⟨[⟨"s1", "n", "temperature", ⟨0, 0, "loc", 0⟩, true, some 0⟩], [], []⟩) "s1"
        = lastReadingOf
            ⟨[⟨"s1", "n", "temperature", ⟨0, 0, "loc", 0⟩, true, some 0⟩], [], []⟩ "s1")) :=
  last_reading_monotone_only_ingestion
    [.adminPutSensor "s1" ⟨none, none, none, some true⟩,
     .restPostReading ⟨"s1", [("temperature", 1)], none⟩]
    1 ⟨[⟨"s1", "n", "temperature", ⟨0, 0, "loc", 0⟩, true, some 0⟩], [], []⟩ "s1"
    (by
      intro s hs t ht
      rw [List.mem_singleton] at hs
      subst hs
      simp only [Option.some.injEq] at ht
      omega)

end IoT
